import Mathlib

/-!
Verification development for the dash-vtk CFD probing demo
(`app-seb-probing.py`).

The application wires two reactive callbacks:

* `update_scene` — reacts to the surface-color dropdown, emitting a render
  trigger, a mapper configuration per vehicle part and a color range per part;
* `probe_data` — reacts to hover events, emitting tooltip text and the state
  of a cone glyph (resolution, center, height, direction, radius).

We embed both callbacks shallowly.  Python numbers become real numbers,
Python dictionaries with optional keys become structures with `Option`
fields, and Python runtime exceptions (KeyError, ZeroDivisionError,
UnboundLocalError) become the error side of `Except`.  The Dash sentinel
`dash.no_update` becomes the `Out.noUpdate` constructor, distinguished from an
actually emitted value `Out.value`.  The VTK mesh objects are modelled as
structures carrying exactly the observations the code makes of them:
point coordinates, named point-data arrays with a component count and flat
data access (GetValue reads flat components, GetTuple3 reads a 3-tuple at
triple offset), and a nearest-point query returning an integer index with -1
as the not-found sentinel.  Float formatting (the Python `:.2f` f-strings) is
kept abstract as a parameter `fmt`, since no claim depends on the rendered
digits.
-/

noncomputable section

/-- Python runtime exceptions that the two callbacks can raise. -/
inductive PyErr where
  | keyError (key : String)
  | zeroDivisionError
  | unboundLocalError (localName : String)
  deriving DecidableEq

/-- A Dash callback output slot: either the `dash.no_update` sentinel or an
actually emitted value. -/
inductive Out (α : Type) where
  | noUpdate
  | value (v : α)
  deriving DecidableEq

/-- A VTK point-data array as observed by the code: a name, a number of
components, and flat data access.  `GetValue i` reads the flat component `i`;
`GetTuple3 i` reads the three components of point `i` (flat offsets `3*i`,
`3*i+1`, `3*i+2`). -/
structure DataArray where
  name : String
  numberOfComponents : ℕ
  data : ℕ → ℝ

/-- The flat component read `array.GetValue(idx)`. -/
def DataArray.getValue (a : DataArray) (i : ℕ) : ℝ := a.data i

/-- The tuple read `array.GetTuple3(idx)`. -/
def DataArray.getTuple3 (a : DataArray) (i : ℕ) : ℝ × ℝ × ℝ :=
  (a.data (3 * i), a.data (3 * i + 1), a.data (3 * i + 2))

/-- A cached VTK mesh as observed by `probe_data`: point coordinates, the
ordered list of point-data arrays, and the `FindPoint` nearest-point query
returning `-1` when no point is found (for instance on an empty mesh). -/
structure Mesh where
  getPoint : ℕ → ℝ × ℝ × ℝ
  arrays : List DataArray
  findPoint : ℝ × ℝ × ℝ → ℤ

/-- The hover payload delivered by dash-vtk: the part identity key
`representationId` may be absent, the world coordinate is present. -/
structure HoverInfo where
  representationId : Option String
  worldPosition : ℝ × ℝ × ℝ

/-- The state dictionary driving the `vtkConeSource` glyph.  The Python code
builds it as a dictionary starting from `{resolution: 12}`; the optional
fields mirror keys that may or may not have been inserted. -/
structure ConeState where
  resolution : ℕ
  center : Option (ℝ × ℝ × ℝ) := none
  height : Option ℝ := none
  direction : Option (ℝ × ℝ × ℝ) := none
  radius : Option ℝ := none

/-- The constant `SCALE_P = 0.0001`. -/
def SCALE_P : ℝ := 0.0001

/-- The constant `SCALE_U = 0.01`. -/
def SCALE_U : ℝ := 0.01

/-- Euclidean norm of the 3-tuple of `a` at point `i`, as computed by
`(value[0] ** 2 + value[1] ** 2 + value[2] ** 2) ** 0.5`. -/
def vecNorm (a : DataArray) (i : ℕ) : ℝ :=
  Real.sqrt ((a.getTuple3 i).1 ^ 2 + (a.getTuple3 i).2.1 ^ 2 + (a.getTuple3 i).2.2 ^ 2)

/-- One iteration of the field loop in `probe_data` (lines 192-211 of the
source): given the running `(messages, cone_state)` pair and the current
array, format the value, and for a 3-component array compute the norm, set
height and direction (raising ZeroDivisionError when the norm is zero, as the
unguarded Python float division does), and for an array named `p` set the
radius from the flat value times `SCALE_P`. -/
def processArray (fmt : ℝ → String) (idx : ℕ) (st : List String × ConeState)
    (a : DataArray) : Except PyErr (List String × ConeState) :=
  if a.numberOfComponents = 3 then
    let v := a.getTuple3 idx
    let norm := vecNorm a idx
    if norm = 0 then
      Except.error PyErr.zeroDivisionError
    else
      let value_str := fmt v.1 ++ ", " ++ fmt v.2.1 ++ ", " ++ fmt v.2.2
      let norm_str := " norm(" ++ fmt norm ++ ")"
      let cs1 : ConeState :=
        { st.2 with height := some (SCALE_U * norm),
                    direction := some (v.1 / norm, v.2.1 / norm, v.2.2 / norm) }
      let cs2 : ConeState :=
        if a.name = "p" then { cs1 with radius := some (a.getValue idx * SCALE_P) } else cs1
      Except.ok (st.1 ++ [a.name ++ ": " ++ value_str ++ " " ++ norm_str], cs2)
  else
    let value_str := fmt (a.getValue idx)
    let cs2 : ConeState :=
      if a.name = "p" then { st.2 with radius := some (a.getValue idx * SCALE_P) } else st.2
    Except.ok (st.1 ++ [a.name ++ ": " ++ value_str ++ " "], cs2)

/-- The field loop `for i in range(size)` of `probe_data`, iterating the
point-data arrays in their native order. -/
def processArrays (fmt : ℝ → String) (idx : ℕ) (st : List String × ConeState) :
    List DataArray → Except PyErr (List String × ConeState)
  | [] => Except.ok st
  | a :: rest => do
    let st2 ← processArray fmt idx st a
    processArrays fmt idx st2 rest

/-- The recentering step (lines 213-217): when the `height` key is present,
shift each center component by `0.5 * height * direction[i]`.  Reading the
`center` or `direction` keys when absent would raise a KeyError, which is
modelled faithfully although unreachable from `probe_data`. -/
def recenter (cs : ConeState) : Except PyErr ConeState :=
  match cs.height with
  | none => Except.ok cs
  | some h =>
    match cs.center, cs.direction with
    | some c, some d =>
      let c2 := (c.1 - 0.5 * h * d.1, c.2.1 - 0.5 * h * d.2.1, c.2.2 - 0.5 * h * d.2.2)
      Except.ok { cs with center := some c2 }
    | _, _ => Except.error (PyErr.keyError "center")

/-- The hover callback `probe_data` (lines 177-220).  The mesh cache
`vtk_datasets` is a dictionary keyed by part name, modelled as an association
list; indexing it with an unknown key raises KeyError.  When the nearest
point index is `-1` the message list is never assigned, so the final
`join(messages)` raises UnboundLocalError.  The truthiness test `if mesh:` is
always true because dictionary indexing either raises or yields a VTK object,
which is truthy. -/
def probeData (fmt : ℝ → String) (cache : List (String × Mesh))
    (info : Option HoverInfo) : Except PyErr (Out (List String) × Out ConeState) :=
  let cone0 : ConeState := { resolution := 12 }
  match info with
  | none => Except.ok (Out.value [""], Out.value cone0)
  | some i =>
    match i.representationId with
    | none => Except.ok (Out.noUpdate, Out.noUpdate)
    | some dsName =>
      match List.lookup dsName cache with
      | none => Except.error (PyErr.keyError dsName)
      | some mesh =>
        let idx := mesh.findPoint i.worldPosition
        if idx > -1 then do
          let st0 : List String × ConeState :=
            ([], { cone0 with center := some (mesh.getPoint idx.toNat) })
          let st ← processArrays fmt idx.toNat st0 mesh.arrays
          let cs ← recenter st.2
          Except.ok (Out.value [String.intercalate "\n" st.1], Out.value cs)
        else do
          let _ ← recenter cone0
          Except.error (PyErr.unboundLocalError "messages")

/-- A mapper configuration dictionary as emitted by `update_scene`. -/
structure Mapper where
  colorByArrayName : Option String := none
  scalarMode : Option ℕ := none
  interpolateScalarsBeforeMapping : Option Bool := none
  scalarVisibility : Bool
  deriving DecidableEq

/-- The `COLOR_RANGES` dictionary (lines 126-130); indexing with a key not in
the dictionary raises KeyError, hence the `Option` result. -/
def COLOR_RANGES : String → Option (ℤ × ℤ)
  | "solid" => some (0, 1)
  | "U" => some (0, 100)
  | "p" => some (-4464, 1700)
  | _ => none

/-- One entry of `dash.callback_context.triggered`: a prop identifier string
and the value carried by the firing. -/
structure TriggeredEvent where
  prop_id : String
  value : String

/-- Substring membership test, modelling the Python expression
`"surfcolor" in triggered[0]["prop_id"]`. -/
def strHasSub (s pat : String) : Bool :=
  (List.range (s.toList.length + 1)).any
    fun i => (s.toList.drop i).take pat.toList.length == pat.toList

/-- The mapper dictionary built by `update_scene` for a selected value: the
scalar-coloring mapper, replaced by `{scalarVisibility: False}` when the
value is `solid`. -/
def mapperFor (v : String) : Mapper :=
  if v = "solid" then { scalarVisibility := false }
  else { colorByArrayName := some v, scalarMode := some 3,
         interpolateScalarsBeforeMapping := some true, scalarVisibility := true }

/-- The dropdown callback `update_scene` (lines 140-161).  Dash invokes it
with the current dropdown value `surfcolor` (which the body never reads) and
the triggered-context list; `rand` stands for the `random.random()` draw
emitted as the render trigger on every invocation.  `nParts` is the number of
vehicle parts; the mapper and range outputs are broadcast to all of them,
either as recomputed values (when the first triggered entry names the
surfcolor prop) or as `dash.no_update` sentinels. -/
def updateScene (nParts : ℕ) (rand : ℝ) (triggered : List TriggeredEvent)
    (surfcolor : String) :
    Except PyErr (ℝ × List (Out Mapper) × List (Out (ℤ × ℤ))) :=
  let _ := surfcolor
  match triggered with
  | t :: _ =>
    if strHasSub t.prop_id "surfcolor" then
      match COLOR_RANGES t.value with
      | none => Except.error (PyErr.keyError t.value)
      | some colorRange =>
        Except.ok (rand, List.replicate nParts (Out.value (mapperFor t.value)),
          List.replicate nParts (Out.value colorRange))
    else
      Except.ok (rand, List.replicate nParts Out.noUpdate,
        List.replicate nParts Out.noUpdate)
  | [] =>
    Except.ok (rand, List.replicate nParts Out.noUpdate,
      List.replicate nParts Out.noUpdate)

/-- The direction value assigned for a 3-component array: the tuple divided
componentwise by its norm. -/
def dirOf (a : DataArray) (i : ℕ) : ℝ × ℝ × ℝ :=
  ((a.getTuple3 i).1 / vecNorm a i, (a.getTuple3 i).2.1 / vecNorm a i,
   (a.getTuple3 i).2.2 / vecNorm a i)

/-- The tooltip line produced for one array by the field loop. -/
def msgOf (fmt : ℝ → String) (idx : ℕ) (a : DataArray) : String :=
  if a.numberOfComponents = 3 then
    a.name ++ ": " ++
      (fmt (a.getTuple3 idx).1 ++ ", " ++ fmt (a.getTuple3 idx).2.1 ++ ", " ++
        fmt (a.getTuple3 idx).2.2) ++ " " ++ (" norm(" ++ fmt (vecNorm a idx) ++ ")")
  else
    a.name ++ ": " ++ fmt (a.getValue idx) ++ " "

/-- The recentered cone center computed from center, height and direction. -/
def shiftCenter (c : ℝ × ℝ × ℝ) (h : ℝ) (d : ℝ × ℝ × ℝ) : ℝ × ℝ × ℝ :=
  (c.1 - 0.5 * h * d.1, c.2.1 - 0.5 * h * d.2.1, c.2.2 - 0.5 * h * d.2.2)

/-- The value of the `height` key after the field loop runs over `l`,
starting from `h`. -/
def heightAfter (idx : ℕ) : List DataArray → Option ℝ → Option ℝ
  | [], h => h
  | a :: l, h =>
    heightAfter idx l (if a.numberOfComponents = 3 then some (SCALE_U * vecNorm a idx) else h)

/-- The value of the `direction` key after the field loop runs over `l`,
starting from `d`. -/
def dirAfter (idx : ℕ) : List DataArray → Option (ℝ × ℝ × ℝ) → Option (ℝ × ℝ × ℝ)
  | [], d => d
  | a :: l, d =>
    dirAfter idx l (if a.numberOfComponents = 3 then some (dirOf a idx) else d)

/-- The value of the `radius` key after the field loop runs over `l`,
starting from `r`. -/
def radiusAfter (idx : ℕ) : List DataArray → Option ℝ → Option ℝ
  | [], r => r
  | a :: l, r =>
    radiusAfter idx l (if a.name = "p" then some (a.getValue idx * SCALE_P) else r)

/-!
Concrete fixtures used by the witnesses below: a vehicle part carrying the
velocity field `U = [3, 4, 0]` and the pressure field `p = 1000` at its
single probed point, a scalar-only part, a part with a zero velocity vector,
and an empty part whose nearest-point query fails.
-/

/-- Trivial formatter standing in for the Python `:.2f` rendering. -/
def fmtDemo : ℝ → String := fun _ => ""

/-- Velocity array with flat data `[3, 4, 0]`, so point 0 carries the tuple
`(3, 4, 0)`. -/
def uArray : DataArray :=
  { name := "U", numberOfComponents := 3,
    data := fun i => if i = 0 then 3 else if i = 1 then 4 else 0 }

/-- Pressure array with constant value 1000. -/
def pArray : DataArray :=
  { name := "p", numberOfComponents := 1, data := fun _ => 1000 }

/-- A vehicle part whose probed point is `(1, 2, 3)` and whose fields are
`U` then `p` in native order. -/
def bodyMesh : Mesh :=
  { getPoint := fun _ => (1, 2, 3), arrays := [uArray, pArray],
    findPoint := fun _ => 0 }

/-- A part carrying only the scalar pressure field. -/
def scalarMesh : Mesh :=
  { getPoint := fun _ => (7, 8, 9), arrays := [pArray], findPoint := fun _ => 0 }

/-- A part whose velocity vector is zero at the probed point. -/
def zeroVecArray : DataArray :=
  { name := "U", numberOfComponents := 3, data := fun _ => 0 }

/-- Mesh carrying the zero velocity vector. -/
def zeroVecMesh : Mesh :=
  { getPoint := fun _ => (0, 0, 0), arrays := [zeroVecArray], findPoint := fun _ => 0 }

/-- A mesh with no points: its nearest-point query returns the sentinel -1. -/
def emptyMesh : Mesh :=
  { getPoint := fun _ => (0, 0, 0), arrays := [], findPoint := fun _ => -1 }

/-- A part carrying only the velocity field, no pressure field. -/
def noPressureMesh : Mesh :=
  { getPoint := fun _ => (0, 0, 0), arrays := [uArray], findPoint := fun _ => 0 }

/-- The demo mesh cache. -/
def demoCache : List (String × Mesh) :=
  [("body", bodyMesh), ("scalar-part", scalarMesh), ("zero-part", zeroVecMesh),
   ("empty-part", emptyMesh), ("wing", noPressureMesh)]

theorem processArray_ok (fmt : ℝ → String) (idx : ℕ) (msgs : List String)
    (cs : ConeState) (a : DataArray)
    (hnz : a.numberOfComponents = 3 → vecNorm a idx ≠ 0) :
    processArray fmt idx (msgs, cs) a =
      Except.ok (msgs ++ [msgOf fmt idx a],
        { cs with
          height := if a.numberOfComponents = 3 then some (SCALE_U * vecNorm a idx) else cs.height,
          direction := if a.numberOfComponents = 3 then some (dirOf a idx) else cs.direction,
          radius := if a.name = "p" then some (a.getValue idx * SCALE_P) else cs.radius }) := by
  unfold processArray msgOf
  by_cases h3 : a.numberOfComponents = 3
  · rw [if_pos h3]
    rw [show vecNorm a idx = Real.sqrt ((a.getTuple3 idx).1 ^ 2 + (a.getTuple3 idx).2.1 ^ 2 +
      (a.getTuple3 idx).2.2 ^ 2) from rfl] at hnz ⊢
    rw [if_neg (hnz h3)]
    by_cases hp : a.name = "p" <;> simp [hp, h3, dirOf, vecNorm]
  · rw [if_neg h3]
    by_cases hp : a.name = "p" <;> simp [hp, h3]

theorem processArrays_ok (fmt : ℝ → String) (idx : ℕ) (l : List DataArray)
    (hnz : ∀ a ∈ l, a.numberOfComponents = 3 → vecNorm a idx ≠ 0) :
    ∀ (msgs : List String) (cs : ConeState),
    processArrays fmt idx (msgs, cs) l =
      Except.ok (msgs ++ l.map (msgOf fmt idx),
        { cs with
          height := heightAfter idx l cs.height,
          direction := dirAfter idx l cs.direction,
          radius := radiusAfter idx l cs.radius }) := by
  induction l with
  | nil => intro msgs cs; simp [processArrays, heightAfter, dirAfter, radiusAfter]
  | cons a l ih =>
    intro msgs cs
    rw [processArrays, processArray_ok fmt idx msgs cs a (hnz a (List.mem_cons_self a l))]
    have hrec := ih (fun b hb => hnz b (List.mem_cons_of_mem a hb)) (msgs ++ [msgOf fmt idx a])
      { cs with
        height := if a.numberOfComponents = 3 then some (SCALE_U * vecNorm a idx) else cs.height,
        direction := if a.numberOfComponents = 3 then some (dirOf a idx) else cs.direction,
        radius := if a.name = "p" then some (a.getValue idx * SCALE_P) else cs.radius }
    simpa [heightAfter, dirAfter, radiusAfter] using hrec

theorem heightAfter_append (idx : ℕ) (l1 l2 : List DataArray) (h : Option ℝ) :
    heightAfter idx (l1 ++ l2) h = heightAfter idx l2 (heightAfter idx l1 h) := by
  induction l1 generalizing h with
  | nil => rfl
  | cons a l ih => simp [heightAfter, ih]

theorem dirAfter_append (idx : ℕ) (l1 l2 : List DataArray) (d : Option (ℝ × ℝ × ℝ)) :
    dirAfter idx (l1 ++ l2) d = dirAfter idx l2 (dirAfter idx l1 d) := by
  induction l1 generalizing d with
  | nil => rfl
  | cons a l ih => simp [dirAfter, ih]

theorem radiusAfter_append (idx : ℕ) (l1 l2 : List DataArray) (r : Option ℝ) :
    radiusAfter idx (l1 ++ l2) r = radiusAfter idx l2 (radiusAfter idx l1 r) := by
  induction l1 generalizing r with
  | nil => rfl
  | cons a l ih => simp [radiusAfter, ih]

theorem heightAfter_no_vec (idx : ℕ) (l : List DataArray) (h : Option ℝ)
    (hl : ∀ a ∈ l, a.numberOfComponents ≠ 3) :
    heightAfter idx l h = h := by
  induction l generalizing h with
  | nil => rfl
  | cons a l ih =>
    rw [heightAfter, if_neg (hl a (List.mem_cons_self a l))]
    exact ih h (fun b hb => hl b (List.mem_cons_of_mem a hb))

theorem dirAfter_no_vec (idx : ℕ) (l : List DataArray) (d : Option (ℝ × ℝ × ℝ))
    (hl : ∀ a ∈ l, a.numberOfComponents ≠ 3) :
    dirAfter idx l d = d := by
  induction l generalizing d with
  | nil => rfl
  | cons a l ih =>
    rw [dirAfter, if_neg (hl a (List.mem_cons_self a l))]
    exact ih d (fun b hb => hl b (List.mem_cons_of_mem a hb))

theorem radiusAfter_no_p (idx : ℕ) (l : List DataArray) (r : Option ℝ)
    (hl : ∀ a ∈ l, a.name ≠ "p") :
    radiusAfter idx l r = r := by
  induction l generalizing r with
  | nil => rfl
  | cons a l ih =>
    rw [radiusAfter, if_neg (hl a (List.mem_cons_self a l))]
    exact ih r (fun b hb => hl b (List.mem_cons_of_mem a hb))

theorem heightAfter_isSome_iff_dirAfter (idx : ℕ) (l : List DataArray)
    (h : Option ℝ) (d : Option (ℝ × ℝ × ℝ)) (hd : h.isSome = d.isSome) :
    (heightAfter idx l h).isSome = (dirAfter idx l d).isSome := by
  induction l generalizing h d with
  | nil => exact hd
  | cons a l ih =>
    rw [heightAfter, dirAfter]
    by_cases h3 : a.numberOfComponents = 3
    · rw [if_pos h3, if_pos h3]; exact ih _ _ rfl
    · rw [if_neg h3, if_neg h3]; exact ih _ _ hd

theorem recenter_of_height_none (cs : ConeState) (hh : cs.height = none) :
    recenter cs = Except.ok cs := by
  unfold recenter
  rw [hh]

theorem recenter_of_some (cs : ConeState) (c : ℝ × ℝ × ℝ) (h : ℝ) (d : ℝ × ℝ × ℝ)
    (hc : cs.center = some c) (hh : cs.height = some h) (hd : cs.direction = some d) :
    recenter cs = Except.ok { cs with center := some (shiftCenter c h d) } := by
  unfold recenter shiftCenter
  rw [hh, hc, hd]

theorem probeData_found (fmt : ℝ → String) (cache : List (String × Mesh))
    (nm : String) (w : ℝ × ℝ × ℝ) (mesh : Mesh) (idx : ℕ)
    (hlook : List.lookup nm cache = some mesh)
    (hfind : mesh.findPoint w = (idx : ℤ)) :
    probeData fmt cache (some ⟨some nm, w⟩) = (do
      let st ← processArrays fmt idx
        ([], { resolution := 12, center := some (mesh.getPoint idx) }) mesh.arrays
      let cs ← recenter st.2
      Except.ok (Out.value [String.intercalate "\n" st.1], Out.value cs)) := by
  unfold probeData
  simp only [hlook, hfind]
  rw [if_pos (by omega : (idx : ℤ) > -1)]
  norm_num

theorem exceptBind_ok {α β : Type} (x : α) (f : α → Except PyErr β) :
    (Except.ok x >>= f) = f x := rfl

theorem probeData_ok_exists (fmt : ℝ → String) (cache : List (String × Mesh))
    (nm : String) (w : ℝ × ℝ × ℝ) (mesh : Mesh) (idx : ℕ)
    (hlook : List.lookup nm cache = some mesh)
    (hfind : mesh.findPoint w = (idx : ℤ))
    (hnz : ∀ a ∈ mesh.arrays, a.numberOfComponents = 3 → vecNorm a idx ≠ 0) :
    ∃ (msgs : List String) (cs : ConeState),
      probeData fmt cache (some ⟨some nm, w⟩) = Except.ok (Out.value msgs, Out.value cs) ∧
      cs.resolution = 12 ∧
      cs.height = heightAfter idx mesh.arrays none ∧
      cs.direction = dirAfter idx mesh.arrays none ∧
      cs.radius = radiusAfter idx mesh.arrays none ∧
      (cs.height = none → cs.center = some (mesh.getPoint idx)) ∧
      (∀ h d, cs.height = some h → cs.direction = some d →
        cs.center = some (shiftCenter (mesh.getPoint idx) h d)) := by
  have hpt := probeData_found fmt cache nm w mesh idx hlook hfind
  have hproc := processArrays_ok fmt idx mesh.arrays hnz []
    ⟨12, some (mesh.getPoint idx), none, none, none⟩
  have hiff := heightAfter_isSome_iff_dirAfter idx mesh.arrays none none rfl
  cases hhA : heightAfter idx mesh.arrays none with
  | none =>
    have hdA : dirAfter idx mesh.arrays none = none := by
      rw [hhA] at hiff
      cases hd2 : dirAfter idx mesh.arrays none with
      | none => rfl
      | some d => rw [hd2] at hiff; simp at hiff
    rw [hhA, hdA] at hproc
    refine ⟨[String.intercalate "\n" (List.map (msgOf fmt idx) mesh.arrays)],
      ⟨12, some (mesh.getPoint idx), none, none, radiusAfter idx mesh.arrays none⟩,
      ?_, rfl, rfl, hdA.symm, rfl, fun _ => rfl, fun h d hh _ => Option.noConfusion hh⟩
    rw [hpt, hproc, exceptBind_ok]
    rw [recenter_of_height_none ⟨12, some (mesh.getPoint idx), none, none,
      radiusAfter idx mesh.arrays none⟩ rfl]
    rfl
  | some h =>
    have hdA : ∃ d, dirAfter idx mesh.arrays none = some d := by
      rw [hhA] at hiff
      cases hd2 : dirAfter idx mesh.arrays none with
      | none => rw [hd2] at hiff; simp at hiff
      | some d => exact ⟨d, rfl⟩
    obtain ⟨d, hd⟩ := hdA
    rw [hhA, hd] at hproc
    refine ⟨[String.intercalate "\n" (List.map (msgOf fmt idx) mesh.arrays)],
      ⟨12, some (shiftCenter (mesh.getPoint idx) h d), some h, some d,
        radiusAfter idx mesh.arrays none⟩,
      ?_, rfl, rfl, hd.symm, rfl, fun hcontra => Option.noConfusion hcontra, ?_⟩
    · rw [hpt, hproc, exceptBind_ok]
      rw [recenter_of_some ⟨12, some (mesh.getPoint idx), some h, some d,
        radiusAfter idx mesh.arrays none⟩ (mesh.getPoint idx) h d rfl rfl rfl]
      rfl
    · intro h2 d2 hh2 hd2
      simp only [Option.some.injEq] at hh2 hd2
      rw [← hh2, ← hd2]

theorem processArrays_zero_norm (fmt : ℝ → String) (idx : ℕ) (l : List DataArray)
    (a : DataArray) (ha : a ∈ l) (h3 : a.numberOfComponents = 3)
    (h0 : vecNorm a idx = 0) :
    ∀ (msgs : List String) (cs : ConeState),
      processArrays fmt idx (msgs, cs) l = Except.error PyErr.zeroDivisionError := by
  induction l with
  | nil => cases ha
  | cons b l ih =>
    intro msgs cs
    by_cases hb : b.numberOfComponents = 3 ∧ vecNorm b idx = 0
    · have herr : processArray fmt idx (msgs, cs) b = Except.error PyErr.zeroDivisionError := by
        simp [processArray, hb.1, hb.2]
      rw [processArrays, herr]
      rfl
    · have hnzb : b.numberOfComponents = 3 → vecNorm b idx ≠ 0 :=
        fun hc hz => hb ⟨hc, hz⟩
      have hal : a ∈ l := by
        rcases List.mem_cons.mp ha with hab | hal
        · exact absurd ⟨hab ▸ h3, hab ▸ h0⟩ hb
        · exact hal
      rw [processArrays, processArray_ok fmt idx msgs cs b hnzb]
      exact ih hal _ _

/-- C8: for a probe whose part is cached and whose nearest-point lookup
succeeds, if some 3-component vector field has Euclidean norm zero at the
probed point, the unguarded division by the norm in the direction computation
raises ZeroDivisionError, so the whole callback fails with that error. -/
theorem probe_zero_norm_divide_by_zero (fmt : ℝ → String)
    (cache : List (String × Mesh)) (nm : String) (w : ℝ × ℝ × ℝ) (mesh : Mesh)
    (idx : ℕ) (a : DataArray)
    (hlook : List.lookup nm cache = some mesh)
    (hfind : mesh.findPoint w = (idx : ℤ))
    (ha : a ∈ mesh.arrays) (h3 : a.numberOfComponents = 3)
    (h0 : vecNorm a idx = 0) :
    probeData fmt cache (some ⟨some nm, w⟩) = Except.error PyErr.zeroDivisionError := by
  rw [probeData_found fmt cache nm w mesh idx hlook hfind]
  rw [processArrays_zero_norm fmt idx mesh.arrays a ha h3 h0 []
    { resolution := 12, center := some (mesh.getPoint idx) }]
  rfl

theorem vecNorm_uArray : vecNorm uArray 0 = 5 := by
  have h1 : uArray.getTuple3 0 = (3, 4, 0) := by
    simp [uArray, DataArray.getTuple3]
  unfold vecNorm
  rw [h1]
  norm_num
  rw [show (25 : ℝ) = 5 ^ 2 by norm_num]
  exact Real.sqrt_sq (by norm_num)

theorem vecNorm_zeroVecArray : vecNorm zeroVecArray 0 = 0 := by
  simp [vecNorm, zeroVecArray, DataArray.getTuple3]

theorem probe_zero_norm_divide_by_zero_witness :
    vecNorm zeroVecArray 0 = 0 ∧
    probeData fmtDemo demoCache (some ⟨some "zero-part", (0, 0, 0)⟩) =
      Except.error PyErr.zeroDivisionError := by
  refine ⟨vecNorm_zeroVecArray, ?_⟩
  exact probe_zero_norm_divide_by_zero fmtDemo demoCache "zero-part" (0, 0, 0)
    zeroVecMesh 0 zeroVecArray rfl rfl (by simp [zeroVecMesh])
    rfl vecNorm_zeroVecArray

/-- C4: for a successful probe at a point whose mesh carries at least one
3-component vector field (and every vector field there has nonzero norm, so
that the unguarded division succeeds), the glyph height equals SCALE_U times
the Euclidean norm of the vector and the glyph direction is the vector
divided componentwise by its norm; the values come from the last 3-component
field in the native field order of the mesh. -/
theorem probe_vector_glyph_height_direction (fmt : ℝ → String)
    (cache : List (String × Mesh)) (nm : String) (w : ℝ × ℝ × ℝ) (mesh : Mesh)
    (idx : ℕ) (pre post : List DataArray) (a : DataArray)
    (hlook : List.lookup nm cache = some mesh)
    (hfind : mesh.findPoint w = (idx : ℤ))
    (hnz : ∀ b ∈ mesh.arrays, b.numberOfComponents = 3 → vecNorm b idx ≠ 0)
    (hsplit : mesh.arrays = pre ++ a :: post)
    (h3 : a.numberOfComponents = 3)
    (hlast : ∀ b ∈ post, b.numberOfComponents ≠ 3) :
    ∃ (msgs : List String) (cs : ConeState),
      probeData fmt cache (some ⟨some nm, w⟩) = Except.ok (Out.value msgs, Out.value cs) ∧
      cs.height = some (SCALE_U * vecNorm a idx) ∧
      cs.direction = some (dirOf a idx) := by
  obtain ⟨msgs, cs, heq, hres, hh, hd, hr, hc0, hcs⟩ :=
    probeData_ok_exists fmt cache nm w mesh idx hlook hfind hnz
  refine ⟨msgs, cs, heq, ?_, ?_⟩
  · rw [hh, hsplit, heightAfter_append, heightAfter, if_pos h3,
      heightAfter_no_vec idx post _ hlast]
  · rw [hd, hsplit, dirAfter_append, dirAfter, if_pos h3,
      dirAfter_no_vec idx post _ hlast]

theorem probe_vector_glyph_height_direction_witness :
    ∃ (msgs : List String) (cs : ConeState),
      probeData fmtDemo demoCache (some ⟨some "body", (1, 2, 3)⟩) =
        Except.ok (Out.value msgs, Out.value cs) ∧
      cs.height = some 0.05 ∧ cs.direction = some (0.6, 0.8, 0) := by
  have hnz : ∀ b ∈ bodyMesh.arrays, b.numberOfComponents = 3 → vecNorm b 0 ≠ 0 := by
    intro b hb h3
    rw [show bodyMesh.arrays = [uArray, pArray] from rfl] at hb
    rcases List.mem_cons.mp hb with hb | hb
    · subst hb; rw [vecNorm_uArray]; norm_num
    · rw [show b = pArray from List.mem_singleton.mp hb] at h3
      simp [pArray] at h3
  have hlast : ∀ b ∈ [pArray], b.numberOfComponents ≠ 3 := by
    intro b hb
    rw [show b = pArray from List.mem_singleton.mp hb]
    simp [pArray]
  obtain ⟨msgs, cs, heq, hh, hd⟩ :=
    probe_vector_glyph_height_direction fmtDemo demoCache "body" (1, 2, 3) bodyMesh 0
      [] [pArray] uArray rfl rfl hnz rfl rfl hlast
  refine ⟨msgs, cs, heq, ?_, ?_⟩
  · rw [hh, vecNorm_uArray]
    norm_num [SCALE_U]
  · rw [hd]
    have hdir : dirOf uArray 0 = (0.6, 0.8, 0) := by
      unfold dirOf
      rw [vecNorm_uArray, show uArray.getTuple3 0 = (3, 4, 0) from by
        simp [uArray, DataArray.getTuple3]]
      norm_num
    rw [hdir]

/-- C5: for a successful probe (with every vector field of nonzero norm):
when some 3-component vector field exists, so that a height and direction
were computed, the emitted center is the probed point shifted per axis by
minus 0.5 times height times direction; when no 3-component field exists, no
height or direction is set and the center is exactly the raw probed point. -/
theorem probe_center_adjustment (fmt : ℝ → String) (cache : List (String × Mesh))
    (nm : String) (w : ℝ × ℝ × ℝ) (mesh : Mesh) (idx : ℕ)
    (hlook : List.lookup nm cache = some mesh)
    (hfind : mesh.findPoint w = (idx : ℤ))
    (hnz : ∀ b ∈ mesh.arrays, b.numberOfComponents = 3 → vecNorm b idx ≠ 0) :
    (∀ pre a post, mesh.arrays = pre ++ a :: post → a.numberOfComponents = 3 →
      (∀ b ∈ post, b.numberOfComponents ≠ 3) →
      ∃ (msgs : List String) (cs : ConeState),
        probeData fmt cache (some ⟨some nm, w⟩) = Except.ok (Out.value msgs, Out.value cs) ∧
        cs.height = some (SCALE_U * vecNorm a idx) ∧
        cs.direction = some (dirOf a idx) ∧
        cs.center = some (shiftCenter (mesh.getPoint idx) (SCALE_U * vecNorm a idx)
          (dirOf a idx))) ∧
    ((∀ b ∈ mesh.arrays, b.numberOfComponents ≠ 3) →
      ∃ (msgs : List String) (cs : ConeState),
        probeData fmt cache (some ⟨some nm, w⟩) = Except.ok (Out.value msgs, Out.value cs) ∧
        cs.height = none ∧ cs.direction = none ∧
        cs.center = some (mesh.getPoint idx)) := by
  obtain ⟨msgs, cs, heq, hres, hh, hd, hr, hc0, hcs⟩ :=
    probeData_ok_exists fmt cache nm w mesh idx hlook hfind hnz
  constructor
  · intro pre a post hsplit h3 hlast
    have hh2 : cs.height = some (SCALE_U * vecNorm a idx) := by
      rw [hh, hsplit, heightAfter_append, heightAfter, if_pos h3,
        heightAfter_no_vec idx post _ hlast]
    have hd2 : cs.direction = some (dirOf a idx) := by
      rw [hd, hsplit, dirAfter_append, dirAfter, if_pos h3,
        dirAfter_no_vec idx post _ hlast]
    exact ⟨msgs, cs, heq, hh2, hd2, hcs _ _ hh2 hd2⟩
  · intro hno
    have hh2 : cs.height = none := by
      rw [hh, heightAfter_no_vec idx mesh.arrays none hno]
    have hd2 : cs.direction = none := by
      rw [hd, dirAfter_no_vec idx mesh.arrays none hno]
    exact ⟨msgs, cs, heq, hh2, hd2, hc0 hh2⟩

theorem probe_center_adjustment_witness :
    (∃ (msgs : List String) (cs : ConeState),
      probeData fmtDemo demoCache (some ⟨some "body", (1, 2, 3)⟩) =
        Except.ok (Out.value msgs, Out.value cs) ∧
      cs.center = some (0.985, 1.98, 3)) ∧
    (∃ (msgs : List String) (cs : ConeState),
      probeData fmtDemo demoCache (some ⟨some "scalar-part", (7, 8, 9)⟩) =
        Except.ok (Out.value msgs, Out.value cs) ∧
      cs.center = some (7, 8, 9) ∧ cs.height = none) := by
  have hnzBody : ∀ b ∈ bodyMesh.arrays, b.numberOfComponents = 3 → vecNorm b 0 ≠ 0 := by
    intro b hb h3
    rw [show bodyMesh.arrays = [uArray, pArray] from rfl] at hb
    rcases List.mem_cons.mp hb with hb | hb
    · subst hb; rw [vecNorm_uArray]; norm_num
    · rw [show b = pArray from List.mem_singleton.mp hb] at h3
      simp [pArray] at h3
  have hnzScalar : ∀ b ∈ scalarMesh.arrays, b.numberOfComponents = 3 → vecNorm b 0 ≠ 0 := by
    intro b hb h3
    rw [show b = pArray from List.mem_singleton.mp hb] at h3
    simp [pArray] at h3
  constructor
  · obtain ⟨hvec, _⟩ :=
      probe_center_adjustment fmtDemo demoCache "body" (1, 2, 3) bodyMesh 0 rfl rfl hnzBody
    obtain ⟨msgs, cs, heq, hh, hd, hc⟩ := hvec [] uArray [pArray] rfl rfl (by
      intro b hb
      rw [show b = pArray from List.mem_singleton.mp hb]
      simp [pArray])
    refine ⟨msgs, cs, heq, ?_⟩
    rw [hc]
    have hdir : dirOf uArray 0 = (0.6, 0.8, 0) := by
      unfold dirOf
      rw [vecNorm_uArray, show uArray.getTuple3 0 = (3, 4, 0) from by
        simp [uArray, DataArray.getTuple3]]
      norm_num
    rw [vecNorm_uArray, hdir, show bodyMesh.getPoint 0 = (1, 2, 3) from rfl]
    unfold shiftCenter
    norm_num [SCALE_U]
  · obtain ⟨_, hscal⟩ :=
      probe_center_adjustment fmtDemo demoCache "scalar-part" (7, 8, 9) scalarMesh 0
        rfl rfl hnzScalar
    obtain ⟨msgs, cs, heq, hh, hd, hc⟩ := hscal (by
      intro b hb
      rw [show b = pArray from List.mem_singleton.mp hb]
      simp [pArray])
    exact ⟨msgs, cs, heq, hc, hh⟩

/-- C6: for a successful probe (with every vector field of nonzero norm),
the glyph radius is set exactly when a field named p is present: with no
field of that name the radius stays unset, and when the last field named p
has value v at the probed point the radius is v times SCALE_P. -/
theorem probe_radius_pressure (fmt : ℝ → String) (cache : List (String × Mesh))
    (nm : String) (w : ℝ × ℝ × ℝ) (mesh : Mesh) (idx : ℕ)
    (hlook : List.lookup nm cache = some mesh)
    (hfind : mesh.findPoint w = (idx : ℤ))
    (hnz : ∀ b ∈ mesh.arrays, b.numberOfComponents = 3 → vecNorm b idx ≠ 0) :
    ((∀ b ∈ mesh.arrays, b.name ≠ "p") →
      ∃ (msgs : List String) (cs : ConeState),
        probeData fmt cache (some ⟨some nm, w⟩) = Except.ok (Out.value msgs, Out.value cs) ∧
        cs.radius = none) ∧
    (∀ pre a post, mesh.arrays = pre ++ a :: post → a.name = "p" →
      (∀ b ∈ post, b.name ≠ "p") →
      ∃ (msgs : List String) (cs : ConeState),
        probeData fmt cache (some ⟨some nm, w⟩) = Except.ok (Out.value msgs, Out.value cs) ∧
        cs.radius = some (a.getValue idx * SCALE_P)) := by
  obtain ⟨msgs, cs, heq, hres, hh, hd, hr, hc0, hcs⟩ :=
    probeData_ok_exists fmt cache nm w mesh idx hlook hfind hnz
  constructor
  · intro hno
    refine ⟨msgs, cs, heq, ?_⟩
    rw [hr, radiusAfter_no_p idx mesh.arrays none hno]
  · intro pre a post hsplit hp hlast
    refine ⟨msgs, cs, heq, ?_⟩
    rw [hr, hsplit, radiusAfter_append, radiusAfter, if_pos hp,
      radiusAfter_no_p idx post _ hlast]

theorem probe_radius_pressure_witness :
    (∃ (msgs : List String) (cs : ConeState),
      probeData fmtDemo demoCache (some ⟨some "body", (1, 2, 3)⟩) =
        Except.ok (Out.value msgs, Out.value cs) ∧
      cs.radius = some 0.1) ∧
    (∃ (msgs : List String) (cs : ConeState),
      probeData fmtDemo demoCache (some ⟨some "wing", (0, 0, 0)⟩) =
        Except.ok (Out.value msgs, Out.value cs) ∧
      cs.radius = none) := by
  have hnzBody : ∀ b ∈ bodyMesh.arrays, b.numberOfComponents = 3 → vecNorm b 0 ≠ 0 := by
    intro b hb h3
    rw [show bodyMesh.arrays = [uArray, pArray] from rfl] at hb
    rcases List.mem_cons.mp hb with hb | hb
    · subst hb; rw [vecNorm_uArray]; norm_num
    · rw [show b = pArray from List.mem_singleton.mp hb] at h3
      simp [pArray] at h3
  have hnzWing : ∀ b ∈ noPressureMesh.arrays, b.numberOfComponents = 3 → vecNorm b 0 ≠ 0 := by
    intro b hb h3
    rw [show b = uArray from List.mem_singleton.mp hb, vecNorm_uArray]
    norm_num
  constructor
  · obtain ⟨_, hyes⟩ :=
      probe_radius_pressure fmtDemo demoCache "body" (1, 2, 3) bodyMesh 0 rfl rfl hnzBody
    obtain ⟨msgs, cs, heq, hrad⟩ := hyes [uArray] pArray [] rfl rfl (by intro b hb; cases hb)
    refine ⟨msgs, cs, heq, ?_⟩
    rw [hrad, show pArray.getValue 0 = 1000 from rfl]
    norm_num [SCALE_P]
  · obtain ⟨hno, _⟩ :=
      probe_radius_pressure fmtDemo demoCache "wing" (0, 0, 0) noPressureMesh 0
        rfl rfl hnzWing
    obtain ⟨msgs, cs, heq, hrad⟩ := hno (by
      intro b hb
      rw [show b = uArray from List.mem_singleton.mp hb]
      simp [uArray])
    exact ⟨msgs, cs, heq, hrad⟩

/-- C1: the claim states that a hover event naming a part id that is not a
key of the mesh cache resolves to the empty tooltip and the default glyph
with no exception.  The code instead indexes the cache dictionary directly,
so the lookup raises KeyError; this theorem evaluates the callback at such an
input and shows the raised error. -/
theorem probe_unknown_part_raises_keyError :
    probeData fmtDemo demoCache (some ⟨some "wheel", (0, 0, 0)⟩) =
      Except.error (PyErr.keyError "wheel") := rfl

/-- C2: the claim states that a hover whose nearest-point lookup returns the
sentinel -1 (empty mesh) yields the empty tooltip and the resolution-only
glyph without error.  In the code the local variable holding the messages is
only assigned inside the branch taken when the index is found, so the final
join on that variable raises UnboundLocalError; this theorem evaluates the
callback on a part whose lookup returns -1 and shows the raised error. -/
theorem probe_findpoint_miss_raises_unboundLocal :
    probeData fmtDemo demoCache (some ⟨some "empty-part", (0, 0, 0)⟩) =
      Except.error (PyErr.unboundLocalError "messages") := rfl

/-- C9: when the hover event is absent the callback returns the tooltip
children list containing the empty string together with a glyph state that
holds only the fixed resolution 12, with no center, height, direction or
radius. -/
theorem probe_no_hover_default (fmt : ℝ → String) (cache : List (String × Mesh)) :
    probeData fmt cache none =
      Except.ok (Out.value [""], Out.value ⟨12, none, none, none, none⟩) := rfl

/-- C10: when the hover event is present but its payload has no
representationId key, the callback returns the explicit no-update sentinel
for both the tooltip and the glyph outputs, an outcome distinct from the
no-probe result whose tooltip is the empty string. -/
theorem probe_no_representation_id_noop (fmt : ℝ → String)
    (cache : List (String × Mesh)) (w : ℝ × ℝ × ℝ) :
    probeData fmt cache (some ⟨none, w⟩) = Except.ok (Out.noUpdate, Out.noUpdate) ∧
    (Out.noUpdate : Out (List String)) ≠ Out.value [""] :=
  ⟨rfl, fun hcontra => Out.noConfusion hcontra⟩

/-- C3 counterexample: the claim states that a selection event carrying the
same value as the current selection leaves all mapper, color-range and
render-trigger outputs unchanged via an explicit no-op signal.  The callback
body only inspects the triggering prop id, never compares the value with the
previous one: a firing of the surfcolor prop that re-carries the current
value "solid" still recomputes and emits fresh mapper and range values
(not the no-update sentinel), and the render trigger is re-emitted as a
fresh random draw. -/
theorem update_scene_same_value_recomputes :
    updateScene 1 (1 / 2) [⟨"surfcolor.value", "solid"⟩] "solid" =
      Except.ok (1 / 2, [Out.value (mapperFor "solid")], [Out.value (0, 1)]) ∧
    Out.value (mapperFor "solid") ≠ (Out.noUpdate : Out Mapper) :=
  ⟨rfl, fun hcontra => Out.noConfusion hcontra⟩

/-- C3 amended: the callback cannot observe whether the dropdown value
actually changed.  Whenever the first triggered entry names the surfcolor
prop — including a spurious firing that re-carries the unchanged current
value — the mapper and color-range outputs are recomputed and re-emitted to
every part; the outputs are left as the explicit no-update sentinel exactly
when the triggered list is empty or names a different prop; and the render
trigger is emitted as a fresh random draw on every invocation, never as a
no-update. -/
theorem update_scene_trigger_behaviour (n : ℕ) (r : ℝ) (cur : String)
    (t : TriggeredEvent) (rest rest2 : List TriggeredEvent) (t2 : TriggeredEvent)
    (rng : ℤ × ℤ)
    (hpid : strHasSub t.prop_id "surfcolor" = true)
    (hrng : COLOR_RANGES t.value = some rng)
    (hpid2 : strHasSub t2.prop_id "surfcolor" = false) :
    updateScene n r (t :: rest) cur =
      Except.ok (r, List.replicate n (Out.value (mapperFor t.value)),
        List.replicate n (Out.value rng)) ∧
    updateScene n r [] cur =
      Except.ok (r, List.replicate n Out.noUpdate, List.replicate n Out.noUpdate) ∧
    updateScene n r (t2 :: rest2) cur =
      Except.ok (r, List.replicate n Out.noUpdate, List.replicate n Out.noUpdate) := by
  refine ⟨?_, rfl, ?_⟩
  · unfold updateScene
    simp [hpid, hrng]
  · unfold updateScene
    simp [hpid2]

theorem update_scene_trigger_behaviour_witness :
    updateScene 1 (1 / 2) [⟨"surfcolor.value", "solid"⟩] "solid" =
      Except.ok (1 / 2, [Out.value (mapperFor "solid")], [Out.value (0, 1)]) ∧
    updateScene 1 (1 / 2) [] "solid" =
      Except.ok (1 / 2, [Out.noUpdate], [Out.noUpdate]) ∧
    updateScene 1 (1 / 2) [⟨"vtk-view.hoverInfo", "x"⟩] "solid" =
      Except.ok (1 / 2, [Out.noUpdate], [Out.noUpdate]) := by
  exact update_scene_trigger_behaviour 1 (1 / 2) "solid" ⟨"surfcolor.value", "solid"⟩
    [] [] ⟨"vtk-view.hoverInfo", "x"⟩ (0, 1) (by decide) rfl (by decide)

/-- C7: when the surfcolor prop fires with the value "solid", the emitted
mapper disables scalar coloring and the range is the placeholder pair
(0, 1); when it fires with any other value of the enumerated set (U or p),
the mapper colors by that array name with scalar mode 3 (point data) and
interpolation before mapping, and the range is the preconfigured pair for
that field — (0, 100) for U and (-4464, 1700) for p — with the same mapper
and range broadcast to every part. -/
theorem update_scene_color_policy (n : ℕ) (r : ℝ) (pid cur v : String)
    (rest : List TriggeredEvent)
    (hpid : strHasSub pid "surfcolor" = true)
    (hv : v = "solid" ∨ v = "U" ∨ v = "p") :
    ∃ rng : ℤ × ℤ, COLOR_RANGES v = some rng ∧
      updateScene n r (⟨pid, v⟩ :: rest) cur =
        Except.ok (r, List.replicate n (Out.value (mapperFor v)),
          List.replicate n (Out.value rng)) ∧
      (v = "solid" → mapperFor v = { scalarVisibility := false } ∧ rng = (0, 1)) ∧
      (v ≠ "solid" →
        mapperFor v =
          { colorByArrayName := some v, scalarMode := some 3,
            interpolateScalarsBeforeMapping := some true, scalarVisibility := true } ∧
        rng = if v = "U" then ((0 : ℤ), (100 : ℤ)) else ((-4464 : ℤ), (1700 : ℤ))) := by
  have hrun : ∀ rng2 : ℤ × ℤ, COLOR_RANGES v = some rng2 →
      updateScene n r (⟨pid, v⟩ :: rest) cur =
        Except.ok (r, List.replicate n (Out.value (mapperFor v)),
          List.replicate n (Out.value rng2)) := by
    intro rng2 hrng2
    unfold updateScene
    simp [hpid, hrng2]
  rcases hv with hv | hv | hv
  · subst hv
    exact ⟨(0, 1), rfl, hrun (0, 1) rfl, fun _ => ⟨rfl, rfl⟩,
      fun hcontra => absurd rfl hcontra⟩
  · subst hv
    refine ⟨(0, 100), rfl, hrun (0, 100) rfl, fun hcontra => by simp at hcontra, ?_⟩
    intro hz
    constructor
    · unfold mapperFor
      rw [if_neg hz]
    · rw [if_pos rfl]
  · subst hv
    refine ⟨(-4464, 1700), rfl, hrun (-4464, 1700) rfl,
      fun hcontra => by simp at hcontra, ?_⟩
    intro hz
    constructor
    · unfold mapperFor
      rw [if_neg hz]
    · rw [if_neg (by simp)]

theorem update_scene_color_policy_witness :
    ∃ rng : ℤ × ℤ, COLOR_RANGES "U" = some rng ∧
      updateScene 2 0 [⟨"surfcolor.value", "U"⟩] "solid" =
        Except.ok (0, List.replicate 2 (Out.value (mapperFor "U")),
          List.replicate 2 (Out.value rng)) ∧
      ("U" = "solid" → mapperFor "U" = { scalarVisibility := false } ∧ rng = (0, 1)) ∧
      ("U" ≠ "solid" →
        mapperFor "U" =
          { colorByArrayName := some "U", scalarMode := some 3,
            interpolateScalarsBeforeMapping := some true, scalarVisibility := true } ∧
        rng = ((0 : ℤ), (100 : ℤ))) := by
  have h := update_scene_color_policy 2 0 "surfcolor.value" "solid" "U" []
    (by decide) (Or.inr (Or.inl rfl))
  obtain ⟨rng, h1, h2, h3, h4⟩ := h
  refine ⟨rng, h1, h2, h3, fun hz => ⟨(h4 hz).1, ?_⟩⟩
  rw [(h4 hz).2, if_pos rfl]

end
